import Mathlib

/-!
Verification development for the VLM_transcriber image-transcription pipeline.

The Python sources are embedded shallowly:
* strings are Lean `String`s (in this toolchain a wrapper around `List Char`,
  matching Python's sequence-of-code-points view), and Python string methods
  (`split`, `strip`, `lower`, `in`, slicing, `title`) are re-implemented over
  `String.data` so that every definition is executable and kernel-reducible;
* Python dicts that the code builds by insertion are association lists
  (`List (String × _)`) with first-match lookup, which coincides with dict
  lookup because insertion (`dictInsert`, `dictMerge`) keeps keys unique;
* the remote Gemini call is an oracle `Nat → GenOutcome` (attempt index to
  either a raised exception's message or a response text), and the observable
  side effects of `_process_single_image` (model invocations, `time.sleep(1)`
  calls) are recorded in an explicit event trace;
* Python functions that cannot raise past their boundary become total Lean
  functions; a caught-and-converted exception is an explicit `Except.error`.
-/

namespace VLM

/-! ## Python string primitives over `List Char` -/

/-- Python `str.split(sep)` for a non-empty separator, on code-point lists:
splits at each leftmost non-overlapping occurrence of `sep`.  The `fuel`
argument (always at least the list's length at the call sites below) only
makes the recursion structural, so that the definition reduces by `decide`. -/
def listSplitOnFuel (sep : List Char) : Nat → List Char → List (List Char)
  | _, [] => [[]]
  | 0, l => [l]
  | fuel + 1, c :: rest =>
    if sep ≠ [] ∧ sep.isPrefixOf (c :: rest) then
      [] :: listSplitOnFuel sep fuel ((c :: rest).drop sep.length)
    else
      match listSplitOnFuel sep fuel rest with
      | [] => [[c]]
      | r :: rs => (c :: r) :: rs

/-- Python `str.split(sep)` on code-point lists. -/
def listSplitOn (sep l : List Char) : List (List Char) :=
  listSplitOnFuel sep l.length l

/-- Python `s.split(sep)` (all occurrences, keeping empty parts). -/
def pySplit (sep s : String) : List String :=
  (listSplitOn sep.data s.data).map String.mk

/-- Python `needle in hay` (substring containment). -/
def pyContains (hay needle : String) : Bool :=
  (listSplitOn needle.data hay.data).length != 1

/-- The characters Python `str.strip()` removes (ASCII whitespace). -/
def isPySpace (c : Char) : Bool :=
  c = ' ' || c = '\t' || c = '\n' || c = '\r' || c = '\x0b' || c = '\x0c'

/-- Python `s.strip()`. -/
def pyStrip (s : String) : String :=
  String.mk (((s.data.dropWhile isPySpace).reverse.dropWhile isPySpace).reverse)

/-- Python `s.lower()` (ASCII case folding; all inputs here are ASCII). -/
def pyLower (s : String) : String :=
  String.mk (s.data.map Char.toLower)

/-- Python `s.title()` for the single lowercase words it is applied to. -/
def pyTitle (s : String) : String :=
  match s.data with
  | [] => ""
  | c :: cs => String.mk (c.toUpper :: cs.map Char.toLower)

/-- Python `s[:n]` (first `n` code points). -/
def pyTruncate (s : String) (n : Nat) : String :=
  String.mk (s.data.take n)

/-- Python `line.split(':', 1)` packaged as the (before, after) pair;
only called on lines that do contain the separator. -/
def splitColon1 (line : String) : String × String :=
  match pySplit ":" line with
  | [] => ("", "")
  | f :: rest => (f, String.intercalate ":" rest)

/-! ## Text formatter (`GeminiProcessor._format_medical_data`) -/

/-- `structured_data['Patient Information']['fields']`. -/
def patientFields : List String := ["Name", "Age", "Sex", "ID"]

/-- `structured_data['Contact Details']['fields']`. -/
def contactFields : List String := ["Address", "Mobile", "Phone"]

/-- `structured_data['Medical Records']['fields']`. -/
def medicalFields : List String := ["Test ID", "Lab ID", "Record Number", "Vehicle Registration"]

/-- All category field keywords, in the dict-iteration order used by the
unmatched-line scan. -/
def allCategoryFields : List String := patientFields ++ contactFields ++ medicalFields

/-- The fallback patterns tried on lines without a colon. -/
def keywordPatterns : List String :=
  ["name", "age", "sex", "address", "mobile", "phone", "id"]

/-- `[line.strip() for line in text.split('\n') if line.strip()]`. -/
def processedLines (text : String) : List String :=
  ((pySplit "\n" text).map pyStrip).filter (fun l => l ≠ "")

/-- The per-line field/value extraction: split at the first colon, else try
each keyword pattern in order, taking the first that occurs exactly once in
the lowercased line (`len(parts) == 2`); otherwise the line is skipped.
Both components are then stripped. -/
def parseLine (line : String) : Option (String × String) :=
  if pyContains line ":" then
    let fv := splitColon1 line
    some (pyStrip fv.1, pyStrip fv.2)
  else
    match keywordPatterns.find? (fun p => (pySplit p (pyLower line)).length == 2) with
    | some p => some (pyStrip (pyTitle p), pyStrip ((pySplit p (pyLower line)).getD 1 ""))
    | none => none

/-- `any(f.lower() in field_lower for f in fields)`. -/
def fieldMatchesAny (fields : List String) (fieldLower : String) : Bool :=
  fields.any (fun f => pyContains fieldLower (pyLower f))

/-- The three `structured_data` category dicts (insertion-ordered). -/
structure StructuredData where
  patient : List (String × String)
  contact : List (String × String)
  medical : List (String × String)
deriving DecidableEq, Repr

def emptySD : StructuredData := ⟨[], [], []⟩

/-- Python dict assignment `d[k] = v`: overwrite in place, else append. -/
def dictInsert (d : List (String × String)) (k v : String) : List (String × String) :=
  if d.any (fun p => p.1 == k) then
    d.map (fun p => if p.1 == k then (p.1, v) else p)
  else
    d ++ [(k, v)]

/-- One iteration of the categorization loop over a cleaned-up line. -/
def categorizeLine (sd : StructuredData) (line : String) : StructuredData :=
  match parseLine line with
  | none => sd
  | some fv =>
    let fieldLower := pyLower fv.1
    if fieldMatchesAny patientFields fieldLower then
      ⟨dictInsert sd.patient fv.1 fv.2, sd.contact, sd.medical⟩
    else if fieldMatchesAny contactFields fieldLower then
      ⟨sd.patient, dictInsert sd.contact fv.1 fv.2, sd.medical⟩
    else if fieldMatchesAny medicalFields fieldLower then
      ⟨sd.patient, sd.contact, dictInsert sd.medical fv.1 fv.2⟩
    else
      sd

def categorizeLines (lines : List String) : StructuredData :=
  lines.foldl categorizeLine emptySD

/-- `next((i for i, f in enumerate(fields) if f.lower() in x.lower()), len(fields))`. -/
def sortKey (fields : List String) (x : String) : Nat :=
  match fields.enum.find? (fun p => pyContains (pyLower x) (pyLower p.2)) with
  | some p => p.1
  | none => fields.length

/-- Stable insertion used to model Python's stable `sorted(..., key=...)`. -/
def insertByKey (key : String → Nat) (x : String) : List String → List String
  | [] => [x]
  | y :: ys => if key y ≤ key x then y :: insertByKey key x ys else x :: y :: ys

/-- Python `sorted(l, key=key)` (stable). -/
def pySorted (key : String → Nat) (l : List String) : List String :=
  l.foldl (fun acc x => insertByKey key x acc) []

/-- Value lookup in a category's `data` dict. -/
def dataLookup (d : List (String × String)) (k : String) : String :=
  ((d.find? (fun p => p.1 == k)).map (fun p => p.2)).getD ""

/-- The markdown table emitted for one category (empty dicts emit nothing). -/
def categoryTable (category : String) (fields : List String)
    (data : List (String × String)) : String :=
  if data.isEmpty then ""
  else
    let sortedFields := pySorted (sortKey fields) (data.map (fun p => p.1))
    let rows := sortedFields.foldl
      (fun acc k => acc ++ "| " ++ k ++ " | " ++ dataLookup data k ++ " |\n") ""
    "\n### " ++ category ++ "\n\n" ++ "| Field | Value |\n" ++ "|-------|--------|\n" ++
      rows ++ "\n"

/-- A line goes to the Additional Information bucket iff it has a colon and
no category keyword occurs anywhere in the lowercased line. -/
def isUnmatchedLine (line : String) : Bool :=
  pyContains line ":" &&
    !(allCategoryFields.any (fun f => pyContains (pyLower line) (pyLower f)))

/-- The Additional Information table (no trailing blank line, as in the code). -/
def additionalTable (lines : List String) : String :=
  let unmatched := lines.filter isUnmatchedLine
  if unmatched.isEmpty then ""
  else
    "\n### Additional Information\n\n" ++ "| Field | Value |\n" ++ "|-------|--------|\n" ++
      unmatched.foldl
        (fun acc line =>
          let fv := splitColon1 line
          acc ++ "| " ++ pyStrip fv.1 ++ " | " ++ pyStrip fv.2 ++ " |\n") ""

/-- The whole `formatted_text` string built by the categorization pass. -/
def formatMedicalBody (text : String) : String :=
  let lines := processedLines text
  let sd := categorizeLines lines
  categoryTable "Patient Information" patientFields sd.patient ++
    categoryTable "Contact Details" contactFields sd.contact ++
    categoryTable "Medical Records" medicalFields sd.medical ++
    additionalTable lines

/-- `GeminiProcessor._format_medical_data`: return the formatted tables when
they are non-blank, else the original text.  The Python `try/except` that
returns `text` on an internal exception has no counterpart here because the
embedding is a total function. -/
def format_medical_data (text : String) : String :=
  let body := formatMedicalBody text
  if pyStrip body ≠ "" then body else text

/-! ## Result records -/

/-- The dict built for each processed image.  The code only ever populates the
keys `filename`, `extracted_text` and `description` (`description` is `None`
in the error case), and `toDict` below exposes exactly that dict. -/
structure ResultRecord where
  filename : String
  extracted_text : String
  description : Option String
deriving DecidableEq, Repr

/-- The literal dict `{'filename': ..., 'extracted_text': ..., 'description': ...}`
in its insertion order, with `Option` for nullable values. -/
def toDict (r : ResultRecord) : List (String × Option String) :=
  [("filename", some r.filename),
   ("extracted_text", some r.extracted_text),
   ("description", r.description)]

/-- `GeminiProcessor._create_error_response`. -/
def create_error_response (filename error_message : String) : ResultRecord :=
  ⟨filename, "Error: " ++ error_message, none⟩

/-- The success dict built at the end of a successful attempt; the extracted
text is passed through `_format_medical_data`. -/
def success_record (filename rawText description : String) : ResultRecord :=
  ⟨filename, format_medical_data rawText, some description⟩

/-! ## Image validation (`GeminiProcessor._validate_image`) -/

/-- An uploaded file as the processor sees it: its declared name and size and
what `PIL.Image.open` finds in its bytes (`decodes = false` models a decode
exception with message `decodeErrMsg`, otherwise `format` is the decoded
format string). -/
structure ImageFile where
  name : String
  size : Nat
  format : String
  decodes : Bool
  decodeErrMsg : String
deriving DecidableEq, Repr

/-- `GeminiProcessor._validate_image`: `none` means valid, `some msg` the
returned error message.  The surrounding `try/except` turns a decode
exception into the `"Error validating image: ..."` message. -/
def validate_image (image_file : Option ImageFile) : Option String :=
  match image_file with
  | none => some "No image file provided"
  | some f =>
    if f.size > 20 * 1024 * 1024 then
      some ("File " ++ f.name ++ " exceeds 20MB size limit")
    else if !f.decodes then
      some ("Error validating image: " ++ f.decodeErrMsg)
    else if ["jpeg", "jpg", "png", "webp"].contains (pyLower f.format) then
      none
    else
      some ("Unsupported image format: " ++ f.format)

/-! ## Retry loop (`GeminiProcessor._process_single_image`) -/

/-- What one call of `self.model.generate_content` does: raise, or return a
response whose `.text` is the given string (`""` models an empty/missing
text field). -/
inductive GenOutcome where
  | raise (msg : String)
  | respond (text : String)

/-- One attempt's outcome after the in-`try` empty-response check:
an empty text raises `ValueError("No text extracted from the image")`,
caught by the same `except` as a transport error. -/
def attemptOutcome (gen : Nat → GenOutcome) (i : Nat) : Except String String :=
  match gen i with
  | .raise m => .error m
  | .respond t => if t = "" then .error "No text extracted from the image" else .ok t

/-- Observable side effects of the retry loop: one `call i` per
`generate_content` invocation (0-based attempt index) and one `sleep 1` per
`time.sleep(1)`. -/
inductive Ev where
  | call (attempt : Nat)
  | sleep (seconds : Nat)
deriving DecidableEq, Repr

def Ev.isCall : Ev → Bool
  | .call _ => true
  | .sleep _ => false

/-- `for attempt in range(max_retries): ...` — returns the produced record
(`none` when the loop body never returns, i.e. Python falls off the function
and returns `None`) together with the event trace. -/
def processLoop (gen : Nat → GenOutcome) (filename description : String)
    (maxRetries attempt : Nat) : Option ResultRecord × List Ev :=
  if _h : attempt < maxRetries then
    match attemptOutcome gen attempt with
    | .ok t => (some (success_record filename t description), [.call attempt])
    | .error m =>
      if attempt = maxRetries - 1 then
        (some (create_error_response filename m), [.call attempt])
      else
        let rest := processLoop gen filename description maxRetries (attempt + 1)
        (rest.1, .call attempt :: .sleep 1 :: rest.2)
  else
    (none, [])
termination_by maxRetries - attempt
decreasing_by omega

/-- `GeminiProcessor._process_single_image`: validation first (no model call,
no sleep), then the retry loop. -/
def process_single_image (gen : Nat → GenOutcome) (maxRetries : Nat)
    (image_file : ImageFile) (description : String) : Option ResultRecord × List Ev :=
  match validate_image (some image_file) with
  | some err => (some (create_error_response image_file.name err), [])
  | none => processLoop gen image_file.name description maxRetries 0

/-! ## Batch loop (`GeminiProcessor.process_images`) -/

/-- The body of the per-item `try/except` in `process_images`, abstracted
over what the `try` block does for an item: `Except.error m` models an
exception `e` with `str(e) = m` escaping the item's processing, which the
`except` arm converts to an error record. -/
def process_images_body (step : ImageFile → Except String (Option ResultRecord))
    (image_files : List ImageFile) : List (Option ResultRecord) :=
  image_files.map (fun f =>
    match step f with
    | .ok r => r
    | .error m => some (create_error_response f.name ("Unexpected error: " ++ m)))

/-- Python `descriptions.get(file.name, "")`. -/
def descriptionFor (descriptions : List (String × String)) (name : String) : String :=
  ((descriptions.find? (fun p => p.1 == name)).map (fun p => p.2)).getD ""

/-- `GeminiProcessor.process_images` (progress-bar side effects omitted):
empty input short-circuits to `[]`; otherwise each item is processed in
order by `_process_single_image`, whose embedding is total, so the abstract
step never takes the `except` arm here. -/
def process_images (gen : ImageFile → Nat → GenOutcome) (maxRetries : Nat)
    (descriptions : List (String × String)) (image_files : List ImageFile) :
    List (Option ResultRecord) :=
  if image_files.isEmpty then []
  else
    process_images_body
      (fun f => .ok (process_single_image (gen f) maxRetries f
        (descriptionFor descriptions f.name)).1)
      image_files

/-! ## Configuration (`config.AppConfig`) and validators (`validators.py`) -/

/-- `AppConfig` (the API key and model name play no part in validation and
are omitted). -/
structure AppConfig where
  MAX_IMAGES : Nat
  ALLOWED_EXTENSIONS : List String
  MAX_FILE_SIZE : Nat
deriving Repr

def defaultConfig : AppConfig := ⟨100, ["jpg", "jpeg", "png", "webp"], 20 * 1024 * 1024⟩

/-- `validators.validate_file_type`: `'.' in filename` and the lowered text
after the last dot (`rsplit('.', 1)[1]`) is an allowed extension. -/
def validate_file_type (filename : String) (allowed_extensions : List String) : Bool :=
  pyContains filename "." &&
    allowed_extensions.contains (pyLower ((pySplit "." filename).getLastD ""))

/-- `validators.validate_file_size`. -/
def validate_file_size (file_size max_size : Nat) : Bool :=
  file_size ≤ max_size

/-- `validators.validate_batch_size`. -/
def validate_batch_size (files : List ImageFile) (max_files : Nat) : Bool :=
  files.length ≤ max_files

/-- The per-file loop at the end of `validators.validate_files`: the first
failing file decides the outcome. -/
def validate_files_items : List ImageFile → AppConfig → Bool × String
  | [], _ => (true, "")
  | f :: rest, config =>
    if !validate_file_type f.name config.ALLOWED_EXTENSIONS then
      (false, "Invalid file type: " ++ f.name)
    else if !validate_file_size f.size config.MAX_FILE_SIZE then
      (false, "File too large: " ++ f.name)
    else
      validate_files_items rest config

/-- `validators.validate_files`. -/
def validate_files (files : List ImageFile) (config : AppConfig) : Bool × String :=
  if files.isEmpty then
    (false, "No files uploaded")
  else if !validate_batch_size files config.MAX_IMAGES then
    (false, "Maximum " ++ toString config.MAX_IMAGES ++ " images allowed per batch")
  else
    validate_files_items files config

/-! ## Column mapping (`DEFAULT_COLUMNS`, `__init__`, `set_column_names`) -/

def DEFAULT_COLUMNS : List (String × String) :=
  [("filename", "Filename"),
   ("extracted_text", "Extracted Text"),
   ("description", "Image Description")]

/-- Python `{**base, **override}`: base keys in order with overriding values,
then the override's new keys. -/
def dictMerge (base override : List (String × String)) : List (String × String) :=
  base.map (fun p =>
    (p.1, (((override.find? (fun q => q.1 == p.1)).map (fun q => q.2)).getD p.2))) ++
    override.filter (fun q => !(base.any (fun p => p.1 == q.1)))

/-- Dict lookup in a column mapping. -/
def colLookup (columns : List (String × String)) (k : String) : Option String :=
  (columns.find? (fun p => p.1 == k)).map (fun p => p.2)

/-- `self.output_columns = {**self.DEFAULT_COLUMNS, **(custom_columns or {})}`
in `__init__` (`custom_columns` defaults to `None`). -/
def init_output_columns (custom_columns : Option (List (String × String))) :
    List (String × String) :=
  dictMerge DEFAULT_COLUMNS (custom_columns.getD [])

/-- `GeminiProcessor.set_column_names`. -/
def set_column_names (custom_columns : List (String × String)) : List (String × String) :=
  dictMerge DEFAULT_COLUMNS custom_columns

/-! ## Excel export (`utils.export_results`, separate-sheets branch) -/

/-- `df.rename(columns=columns)` applied to one record's dict: keys found in
the mapping are replaced by their display label, others kept. -/
def display_label (columns : List (String × String)) (k : String) : String :=
  (colLookup columns k).getD k

def rename_record (columns : List (String × String)) (r : ResultRecord) :
    List (String × Option String) :=
  (toDict r).map (fun p => (display_label columns p.1, p.2))

/-- `row[columns['filename']][:31]` for one row of the renamed DataFrame. -/
def sheet_name_for (columns : List (String × String)) (r : ResultRecord) : String :=
  pyTruncate
    (((((rename_record columns r).find?
        (fun p => p.1 == display_label columns "filename")).map (fun p => p.2)).getD
      none).getD "")
    31

/-- The per-item sheet names written by `export_results`: one per row of the
DataFrame when `separate_sheets` is set, none otherwise. -/
def export_sheet_names (columns : List (String × String)) (separate_sheets : Bool)
    (results : List ResultRecord) : List String :=
  if separate_sheets then results.map (sheet_name_for columns) else []

/-! ## Shared lemmas -/

/-- Splitting on a string that does not occur yields a single chunk. -/
theorem pySplit_length_of_not_contains (hay needle : String)
    (h : pyContains hay needle = false) : (pySplit needle hay).length = 1 := by
  unfold pyContains at h
  unfold pySplit
  rw [List.length_map]
  simpa using h

/-- A line with no colon and no keyword occurrence is skipped entirely. -/
theorem parseLine_eq_none (line : String)
    (hc : pyContains line ":" = false)
    (hk : ∀ p ∈ keywordPatterns, pyContains (pyLower line) p = false) :
    parseLine line = none := by
  unfold parseLine
  rw [hc]
  simp only [Bool.false_eq_true, if_false]
  rw [List.find?_eq_none.mpr]
  intro p hp
  have h1 := pySplit_length_of_not_contains (pyLower line) p (hk p hp)
  simp [h1]

/-- Skipped lines leave the structured data untouched. -/
theorem foldl_categorize_of_parse_none (lines : List String)
    (h : ∀ l ∈ lines, parseLine l = none) :
    ∀ sd, lines.foldl categorizeLine sd = sd := by
  induction lines with
  | nil => intro sd; rfl
  | cons a t ih =>
    intro sd
    have ha : parseLine a = none := h a (by simp)
    have hstep : categorizeLine sd a = sd := by
      unfold categorizeLine
      rw [ha]
    rw [List.foldl_cons, hstep]
    exact ih (fun l hl => h l (by simp [hl])) sd

/-- If nothing was categorized and no line reached the Additional
Information bucket, the formatter hands back the input text. -/
theorem format_of_no_output (text : String)
    (h1 : categorizeLines (processedLines text) = emptySD)
    (h2 : (processedLines text).filter isUnmatchedLine = []) :
    format_medical_data text = text := by
  have hbody : formatMedicalBody text = "" := by
    simp only [formatMedicalBody, h1, additionalTable, h2]
    rfl
  simp only [format_medical_data, hbody]
  rfl

/-- `process_images` is the per-item loop (the empty-input guard returns the
same empty list the loop would). -/
theorem process_images_eq_body (gen : ImageFile → Nat → GenOutcome) (maxRetries : Nat)
    (descriptions : List (String × String)) (image_files : List ImageFile) :
    process_images gen maxRetries descriptions image_files =
      process_images_body
        (fun f => .ok (process_single_image (gen f) maxRetries f
          (descriptionFor descriptions f.name)).1)
        image_files := by
  cases image_files with
  | nil => rfl
  | cons a l => rfl

/-- Truncation really bounds the length. -/
theorem pyTruncate_length_le (s : String) (n : Nat) : (pyTruncate s n).length ≤ n := by
  show (s.data.take n).length ≤ n
  rw [List.length_take]
  omega

/-! ## Claims -/

/-- C1: `process_images` returns exactly one entry per input item, in input
order; it is a total function (the embedding of a `try/except` loop that
cannot raise), and a per-item exception escaping the item's processing (the
`Except.error` case of the abstract step) becomes that item's
`Unexpected error` record. -/
theorem process_images_one_record_per_item
    (gen : ImageFile → Nat → GenOutcome) (maxRetries : Nat)
    (descriptions : List (String × String))
    (step : ImageFile → Except String (Option ResultRecord))
    (image_files : List ImageFile) :
    (process_images gen maxRetries descriptions image_files).length =
      image_files.length ∧
    (∀ i : Nat,
      (process_images gen maxRetries descriptions image_files)[i]? =
        (image_files[i]?).map (fun f =>
          (process_single_image (gen f) maxRetries f
            (descriptionFor descriptions f.name)).1)) ∧
    (∀ i : Nat,
      (process_images_body step image_files)[i]? =
        (image_files[i]?).map (fun f =>
          match step f with
          | .ok r => r
          | .error m =>
            some (create_error_response f.name ("Unexpected error: " ++ m)))) := by
  refine ⟨?_, ?_, ?_⟩
  · rw [process_images_eq_body]
    simp [process_images_body]
  · intro i
    rw [process_images_eq_body]
    simp [process_images_body, List.getElem?_map]
  · intro i
    simp [process_images_body, List.getElem?_map]

/-- C3 (code bug): the records the pipeline builds carry only `filename`,
`extracted_text` and `description`; there is no `status`, no error-message
field and no `processing_time` field, although the repository's own tests
(`test_create_error_response`, `test_process_single_image_success`) assert
them.  Evaluated at the test suite's own input. -/
theorem result_records_lack_status_fields :
    (toDict (create_error_response "test.jpg" "Test error")).lookup "status" = none ∧
    (toDict (create_error_response "test.jpg" "Test error")).lookup "error" = none ∧
    (toDict (create_error_response "test.jpg" "Test error")).lookup "processing_time" =
      none ∧
    (toDict (create_error_response "test.jpg" "Test error")).lookup "extracted_text" =
      some (some "Error: Test error") ∧
    (toDict (success_record "a.jpg" "hello" "d")).lookup "status" = none ∧
    (toDict (success_record "a.jpg" "hello" "d")).lookup "processing_time" = none := by
  decide

/-- The three-line sample used for the formatter-categorization claim. -/
def sampleText : String := "Name: John Smith\nMobile: 555-1234\nNotes: fine"

/-- C5: in the sample, "Name: John Smith" lands in Patient Information as
field "Name" with value "John Smith", "Mobile: 555-1234" lands in Contact
Details, and "Notes: fine" matches no category and is emitted in the
Additional Information table. -/
theorem formatter_categorization_sample :
    (categorizeLines (processedLines sampleText)).patient = [("Name", "John Smith")] ∧
    (categorizeLines (processedLines sampleText)).contact = [("Mobile", "555-1234")] ∧
    (categorizeLines (processedLines sampleText)).medical = [] ∧
    (processedLines sampleText).filter isUnmatchedLine = ["Notes: fine"] ∧
    additionalTable (processedLines sampleText) =
      "\n### Additional Information\n\n| Field | Value |\n|-------|--------|\n| Notes | fine |\n" := by
  decide

/-- C7: a batch longer than `MAX_IMAGES` is rejected with the batch-too-large
message no matter what the individual files look like — the batch check runs
before any per-item extension or size check. -/
theorem batch_too_large_short_circuits (files : List ImageFile) (config : AppConfig)
    (h : config.MAX_IMAGES < files.length) :
    validate_files files config =
      (false, "Maximum " ++ toString config.MAX_IMAGES ++ " images allowed per batch") := by
  obtain ⟨f, rest, rfl⟩ : ∃ f rest, files = f :: rest := by
    cases files with
    | nil => simp at h
    | cons f rest => exact ⟨f, rest, rfl⟩
  have h2 : validate_batch_size (f :: rest) config.MAX_IMAGES = false := by
    simp only [validate_batch_size, decide_eq_false_iff_not]
    omega
  simp [validate_files, h2]

/-- Witness for C7 at a concrete three-file batch against a limit of two. -/
theorem batch_too_large_witness :
    validate_files
      [⟨"a.jpg", 1, "JPEG", true, ""⟩, ⟨"b.jpg", 1, "JPEG", true, ""⟩,
       ⟨"c.jpg", 1, "JPEG", true, ""⟩]
      ⟨2, ["jpg"], 100⟩ = (false, "Maximum 2 images allowed per batch") := by
  have h := batch_too_large_short_circuits
    [⟨"a.jpg", 1, "JPEG", true, ""⟩, ⟨"b.jpg", 1, "JPEG", true, ""⟩,
     ⟨"c.jpg", 1, "JPEG", true, ""⟩]
    ⟨2, ["jpg"], 100⟩ (by decide)
  rw [h]
  decide

/-- C8: with separate sheets enabled, every sheet name is exactly the row's
filename value (read through the column mapping) cut to its first 31
characters, hence never longer than 31 characters. -/
theorem export_sheet_names_truncate (columns : List (String × String))
    (results : List ResultRecord) :
    export_sheet_names columns true results =
      results.map (fun r => pyTruncate r.filename 31) ∧
    ∀ s ∈ export_sheet_names columns true results, s.length ≤ 31 := by
  have h1 : ∀ r : ResultRecord, sheet_name_for columns r = pyTruncate r.filename 31 := by
    intro r
    simp [sheet_name_for, rename_record, toDict, List.find?]
  have hmain : export_sheet_names columns true results =
      results.map (fun r => pyTruncate r.filename 31) := by
    simp only [export_sheet_names, if_pos]
    exact List.map_congr_left (fun r _ => h1 r)
  refine ⟨hmain, ?_⟩
  intro s hs
  rw [hmain] at hs
  obtain ⟨r, _, rfl⟩ := List.mem_map.mp hs
  exact pyTruncate_length_le r.filename 31

/-- Witness for C8 on a 44-character filename: the sheet name is the
31-character cut. -/
theorem export_sheet_names_truncate_witness :
    export_sheet_names DEFAULT_COLUMNS true
      [⟨"0123456789012345678901234567890123456789.png", "t", none⟩] =
      ["0123456789012345678901234567890"] ∧
    ("0123456789012345678901234567890" : String).length ≤ 31 := by
  have h := export_sheet_names_truncate DEFAULT_COLUMNS
    [⟨"0123456789012345678901234567890123456789.png", "t", none⟩]
  refine ⟨?_, by decide⟩
  rw [h.1]
  decide

/-- C10: after `__init__` and after any `set_column_names`, the mapping still
contains the keys `filename`, `extracted_text` and `description`, each bound
to its default label unless the custom mapping overrides that key. -/
theorem output_columns_contain_defaults (custom : List (String × String))
    (customOpt : Option (List (String × String))) :
    colLookup (set_column_names custom) "filename" =
      some ((colLookup custom "filename").getD "Filename") ∧
    colLookup (set_column_names custom) "extracted_text" =
      some ((colLookup custom "extracted_text").getD "Extracted Text") ∧
    colLookup (set_column_names custom) "description" =
      some ((colLookup custom "description").getD "Image Description") ∧
    colLookup (init_output_columns customOpt) "filename" =
      some ((colLookup (customOpt.getD []) "filename").getD "Filename") ∧
    colLookup (init_output_columns customOpt) "extracted_text" =
      some ((colLookup (customOpt.getD []) "extracted_text").getD "Extracted Text") ∧
    colLookup (init_output_columns customOpt) "description" =
      some ((colLookup (customOpt.getD []) "description").getD "Image Description") := by
  refine ⟨rfl, ?_, ?_, rfl, ?_, ?_⟩ <;>
    simp [colLookup, set_column_names, init_output_columns, dictMerge, DEFAULT_COLUMNS,
      List.find?]

/-- C4 is false as stated: "name John" contains no colon on any line, yet the
keyword fallback turns it into a Patient Information table, so the formatter
does not return the input unchanged. -/
theorem colon_free_text_can_change :
    ((pySplit "\n" "name John").all (fun l => !pyContains l ":")) = true ∧
    format_medical_data "name John" ≠ "name John" := by
  decide

/-- C4 amended: if no (cleaned-up) line contains a colon and no line contains
any of the keyword patterns name/age/sex/address/mobile/phone/id
(case-insensitively), the formatter returns the input text unchanged. -/
theorem colon_and_keyword_free_text_unchanged (text : String)
    (h : ∀ l ∈ processedLines text,
      pyContains l ":" = false ∧
        ∀ p ∈ keywordPatterns, pyContains (pyLower l) p = false) :
    format_medical_data text = text := by
  have h1 : categorizeLines (processedLines text) = emptySD :=
    foldl_categorize_of_parse_none (processedLines text)
      (fun l hl => parseLine_eq_none l (h l hl).1 (h l hl).2) emptySD
  have h2 : (processedLines text).filter isUnmatchedLine = [] := by
    rw [List.filter_eq_nil_iff]
    intro l hl
    simp [isUnmatchedLine, (h l hl).1]
  exact format_of_no_output text h1 h2

/-- Witness for the amended C4 on colon- and keyword-free prose. -/
theorem colon_and_keyword_free_text_unchanged_witness :
    format_medical_data "hello world" = "hello world" :=
  colon_and_keyword_free_text_unchanged "hello world" (by decide)

/-- C6: the formatter is a total function of the input text — the embedding
of a method whose `except` arm returns the raw text — and whenever no
category (the three named ones, via the structured data, and the Additional
Information bucket) produced any output, it returns the original text
unchanged. -/
theorem formatter_returns_input_when_no_output (text : String)
    (h1 : categorizeLines (processedLines text) = emptySD)
    (h2 : (processedLines text).filter isUnmatchedLine = []) :
    format_medical_data text = text :=
  format_of_no_output text h1 h2

/-- Witness for C6 on prose that produces no category output. -/
theorem formatter_returns_input_when_no_output_witness :
    format_medical_data "lorem ipsum" = "lorem ipsum" :=
  formatter_returns_input_when_no_output "lorem ipsum" (by decide) (by decide)

/-- Trace of a retry run that fails on every remaining attempt: calls at
`attempt, attempt+1, ..., maxRetries-1` with a one-second sleep between each
consecutive pair and none after the last, ending in the last error's record. -/
theorem processLoop_all_fail (gen : Nat → GenOutcome) (filename description : String)
    (msgs : Nat → String) (maxRetries : Nat) :
    ∀ k attempt, attempt + k + 1 = maxRetries →
      (∀ i, i < maxRetries → attemptOutcome gen i = .error (msgs i)) →
      processLoop gen filename description maxRetries attempt =
        (some (create_error_response filename (msgs (maxRetries - 1))),
         (List.range' attempt k).flatMap (fun i => [Ev.call i, Ev.sleep 1]) ++
           [Ev.call (maxRetries - 1)]) := by
  intro k
  induction k with
  | zero =>
    intro attempt hsum hfail
    have hlt : attempt < maxRetries := by omega
    have hlast : attempt = maxRetries - 1 := by omega
    rw [processLoop]
    rw [dif_pos hlt, hfail attempt hlt]
    simp [hlast, List.range']
  | succ k ih =>
    intro attempt hsum hfail
    have hlt : attempt < maxRetries := by omega
    have hne : attempt ≠ maxRetries - 1 := by omega
    rw [processLoop]
    rw [dif_pos hlt, hfail attempt hlt]
    simp only [if_neg hne]
    rw [ih (attempt + 1) (by omega) hfail]
    rw [List.range'_succ]
    simp

/-- Calls in the alternating call/sleep trace: one per listed attempt. -/
theorem countP_call_sleep_trace (l : List Nat) :
    ((l.flatMap (fun i => [Ev.call i, Ev.sleep 1])).countP Ev.isCall) = l.length := by
  induction l with
  | nil => rfl
  | cons a t ih =>
    simp [List.flatMap_cons, List.countP_append, List.countP_cons, Ev.isCall, ih]

/-- C2: for a validated image whose remote call fails on every attempt, the
model is invoked exactly `max_retries` times (the `Ev.call` events, in attempt
order), a single `sleep 1` separates consecutive attempts with none after the
last, and the returned record is the error record built from the last
attempt's message. -/
theorem retry_exhaustion (gen : Nat → GenOutcome) (image_file : ImageFile)
    (description : String) (maxRetries : Nat) (msgs : Nat → String)
    (hval : validate_image (some image_file) = none)
    (hpos : 1 ≤ maxRetries)
    (hfail : ∀ i, i < maxRetries → attemptOutcome gen i = .error (msgs i)) :
    process_single_image gen maxRetries image_file description =
      (some (create_error_response image_file.name (msgs (maxRetries - 1))),
       (List.range (maxRetries - 1)).flatMap (fun i => [Ev.call i, Ev.sleep 1]) ++
         [Ev.call (maxRetries - 1)]) ∧
    ((process_single_image gen maxRetries image_file description).2.countP Ev.isCall) =
      maxRetries := by
  have hmain : process_single_image gen maxRetries image_file description =
      (some (create_error_response image_file.name (msgs (maxRetries - 1))),
       (List.range (maxRetries - 1)).flatMap (fun i => [Ev.call i, Ev.sleep 1]) ++
         [Ev.call (maxRetries - 1)]) := by
    unfold process_single_image
    rw [hval, List.range_eq_range']
    exact processLoop_all_fail gen image_file.name description msgs maxRetries
      (maxRetries - 1) 0 (by omega) hfail
  refine ⟨hmain, ?_⟩
  rw [hmain]
  rw [List.countP_append, countP_call_sleep_trace]
  simp [List.countP_cons, Ev.isCall]
  omega

/-- The valid sample image used by the retry witnesses. -/
def imgOk : ImageFile := ⟨"scan.jpg", 5, "JPEG", true, ""⟩

/-- Witness for C2 with three attempts that all raise "boom". -/
theorem retry_exhaustion_witness :
    process_single_image (fun _ => GenOutcome.raise "boom") 3 imgOk "" =
      (some (create_error_response "scan.jpg" "boom"),
       [Ev.call 0, Ev.sleep 1, Ev.call 1, Ev.sleep 1, Ev.call 2]) ∧
    ((process_single_image (fun _ => GenOutcome.raise "boom") 3 imgOk "").2.countP
      Ev.isCall) = 3 := by
  have h := retry_exhaustion (fun _ => GenOutcome.raise "boom") imgOk "" 3
    (fun _ => "boom") (by decide) (by omega) (fun i _ => rfl)
  refine ⟨?_, h.2⟩
  rw [h.1]
  decide

/-- C9: with `max_retries = 0` the `for attempt in range(0)` body never runs,
so a validated image's `_process_single_image` falls off the function and
returns `None`, and the corresponding entry of the `process_images` result
list is `None` rather than a record. -/
theorem zero_retries_yields_none (gen : ImageFile → Nat → GenOutcome)
    (descriptions : List (String × String)) (pre post : List ImageFile)
    (image_file : ImageFile) (description : String)
    (hval : validate_image (some image_file) = none) :
    process_single_image (gen image_file) 0 image_file description = (none, []) ∧
    (process_images gen 0 descriptions (pre ++ image_file :: post))[pre.length]? =
      some none := by
  have h1 : ∀ d, process_single_image (gen image_file) 0 image_file d = (none, []) := by
    intro d
    unfold process_single_image
    rw [hval, processLoop]
    simp
  refine ⟨h1 description, ?_⟩
  rw [process_images_eq_body]
  unfold process_images_body
  rw [List.getElem?_map]
  have hmid : (pre ++ image_file :: post)[pre.length]? = some image_file := by
    rw [List.getElem?_append_right (le_refl pre.length)]
    simp
  rw [hmid]
  simp [h1]

/-- The valid sample image used by the zero-retries witness. -/
def imgPng : ImageFile := ⟨"form.png", 1024, "PNG", true, ""⟩

/-- Witness for C9 on a one-image batch with `max_retries = 0`. -/
theorem zero_retries_yields_none_witness :
    process_single_image (fun _ => GenOutcome.raise "boom") 0 imgPng "" = (none, []) ∧
    (process_images (fun _ _ => GenOutcome.raise "boom") 0 [] [imgPng])[0]? =
      some none := by
  have h := zero_retries_yields_none (fun _ _ => GenOutcome.raise "boom") [] [] []
    imgPng "" (by decide)
  simpa using h

end VLM
